import Mathlib

/-!
# Verification of `final_product_scraper.py`

A shallow embedding of the decision logic of the scraper
(`src/final_product_scraper.py`): the URL cleanup performed before image
download (`download_image`, lines 218-271), the per-field extraction
cascades (`extract_product_name` and friends, lines 440-794 and 992-1129),
the duplicate-image tracker (`is_duplicate_image`, lines 1131-1149), the
record assembly in `scrape_product` (lines 796-906) and the batch driver
`scrape_all_products` (lines 908-982).

Python strings are modelled as `List Char`; external I/O (HTTP fetches,
the Selenium driver, the translator, uuid generation) is passed in as
explicit function parameters, so every definition is a total computable
function of its inputs.
-/

/-- Python strings, modelled as lists of characters. -/
abbrev Str := List Char

/-- `startsWith p s` models Python `s.startswith(p)`. -/
def startsWith : Str → Str → Bool
  | [], _ => true
  | _ :: _, [] => false
  | p :: ps, c :: cs => p == c && startsWith ps cs

/-- Python `str.split(sep)` for a one-character separator: always returns a
non-empty list of (possibly empty) pieces. -/
def pySplit (sep : Char) : Str → List Str
  | [] => [[]]
  | c :: rest =>
    match pySplit sep rest with
    | [] => [[]]
    | h :: t => if c == sep then [] :: h :: t else (c :: h) :: t

/-- The whitespace characters stripped by Python `str.strip()`. -/
def isSpaceChar (c : Char) : Bool :=
  c == ' ' || c == '\t' || c == '\n' || c == '\r' || c == '\x0b' || c == '\x0c'

/-- Python `str.strip()`: drop leading and trailing whitespace. -/
def pyStrip (s : Str) : Str :=
  ((s.dropWhile isSpaceChar).reverse.dropWhile isSpaceChar).reverse

/-- The URL cleanup at the start of `download_image`
(src/final_product_scraper.py lines 225-229): a URL already carrying an
`http://`/`https://` scheme is kept as is, a protocol-relative `//…` URL
gets `https:` prepended, anything else gets `https://` prepended.
This is the only URL normalization the source performs. -/
def cleanImageUrl (u : Str) : Str :=
  if startsWith "http://".data u || startsWith "https://".data u then u
  else if startsWith "//".data u then "https:".data ++ u
  else "https://".data ++ u

/-- The extensions recognized by `download_image` (line 242). -/
def imageExts : List Str := ["jpg", "jpeg", "png", "gif", "webp"].map String.data

/-- A character kept by `re.sub(r'[^\w\s-]', '', name)` (line 232): word
characters (modelled over the code's ASCII alphabet), whitespace, or `-`. -/
def isKeptNameChar (c : Char) : Bool :=
  c.isAlphanum || c == '_' || isSpaceChar c || c == '-'

/-- The safe filename stem built in `download_image` (lines 232-234):
strip disallowed characters, strip whitespace, replace spaces by `_`;
fall back to `"product"` when empty. -/
def safeName (productName : Str) : Str :=
  let s := (pyStrip (productName.filter isKeptNameChar)).map
    (fun c => if c == ' ' then '_' else c)
  if s.isEmpty then "product".data else s

/-- The extension chosen in `download_image` (lines 239-243): take the last
path component of the pre-query part of the URL; if it contains a dot and
its lowercased final dot-segment is a recognized extension, use it,
otherwise default to `.jpg`. -/
def fileExt (url : Str) : Str :=
  let lastComp := ((pySplit '/' ((pySplit '?' url).headD [])).getLastD [])
  if lastComp.contains '.' then
    let ext := ((pySplit '.' lastComp).getLastD []).map Char.toLower
    if imageExts.contains ext then '.' :: ext else ".jpg".data
  else ".jpg".data

/-- `download_image` (lines 218-271), I/O abstracted: `fetchImg url = true`
models `requests.get` returning status 200 (false covers both a non-200
status and a raised exception, each of which makes the function return
`None`); `uid` stands for the fresh `uuid4` fragment. On success the local
path `product_images/<safe>_<uid><ext>` is returned. -/
def downloadImage (fetchImg : Str → Bool) (uid : Str)
    (imageUrl productName : Str) : Option Str :=
  if imageUrl.isEmpty then none
  else
    let url := cleanImageUrl imageUrl
    let filename := safeName productName ++ ['_'] ++ uid ++ fileExt url
    if fetchImg url then some ("product_images/".data ++ filename) else none

/-- The short-description truncation in `scrape_product` (lines 858-861):
inputs longer than 150 characters are cut to 147 and a 3-character
ellipsis is appended. -/
def shortDescription (s : Str) : Str :=
  if 150 < s.length then s.take 147 ++ "...".data else s

/-- Modelled from the spec: the source performs no low-quality filtering,
so the spec's marker set (thumbnail-size tokens `_50x50`..`_600x600` and
quality tokens `q30`..`q60`, §4.1 step 2) is reproduced here from the
spec's words in order to state the claims that mention it. -/
def lowQualityMarkers : List Str :=
  (["_50x50", "_60x60", "_80x80", "_100x100", "_120x120", "_150x150",
    "_200x200", "_250x250", "_300x300", "_350x350", "_400x400", "_450x450",
    "_500x500", "_550x550", "_600x600",
    "q30", "q35", "q40", "q45", "q50", "q55", "q60"]).map String.data

/-- `containsSub m s` holds when `m` occurs as a contiguous substring of
`s` (Python's `m in s`). -/
def containsSub (m : Str) : Str → Bool
  | [] => startsWith m []
  | c :: rest => startsWith m (c :: rest) || containsSub m rest

/-- Whether a raw URL contains one of the spec's low-quality markers. -/
def containsLowQualityMarker (u : Str) : Bool :=
  lowQualityMarkers.any fun m => containsSub m u

/-! ## Field-extraction cascades

Each extraction strategy runs against the live Selenium DOM, so a strategy
is modelled by its observable outcome. For the collection extractors an
outcome is raised (`err`), nothing acceptable (`miss`), or an acceptable
value (`hit v`); scalar strategies additionally have a
matched-but-unacceptable outcome (see `ScalarOutcome`). The extractor
bodies below reproduce the source's control flow over these outcomes. -/

/-- Outcome of one extraction strategy against the page. -/
inductive StrategyOutcome (α : Type) where
  | err : StrategyOutcome α
  | miss : StrategyOutcome α
  | hit : α → StrategyOutcome α
deriving DecidableEq

/-- Outcome of one scalar-field strategy. Besides raising (`err`),
matching nothing (`miss`) and producing an acceptable value (`accept`),
a scalar strategy can match a value that fails its acceptance check
AFTER having already assigned it to the local result variable
(`reject v`): the regex stages of `extract_product_name` (lines 503-511)
and `extract_description` (lines 666-674) run `name = match.group(1)…`
before testing the length threshold, so the rejected value stays in the
variable and is what the function returns if nothing better follows. -/
inductive ScalarOutcome where
  | err : ScalarOutcome
  | miss : ScalarOutcome
  | reject : Str → ScalarOutcome
  | accept : Str → ScalarOutcome
deriving DecidableEq

/-- A scalar strategy that failed to produce an acceptable value
(anything but `accept`). -/
def scalarFailed : ScalarOutcome → Bool
  | .accept _ => false
  | _ => true

/-- The scalar-field cascade shape shared by `extract_product_name`,
`extract_price` and `extract_description` (lines 440-677): strategies
run in order inside one `try`, carrying the local result variable `acc`
(initially the default). An acceptable value returns immediately; a
matched-but-unacceptable value overwrites `acc` and the cascade
continues; an exception jumps to the outer handler, which returns the
current `acc`; exhaustion also returns the current `acc`. -/
def cascadeScalar (acc : Str) : List ScalarOutcome → Str
  | [] => acc
  | .err :: _ => acc
  | .miss :: rest => cascadeScalar acc rest
  | .reject v :: rest => cascadeScalar v rest
  | .accept v :: _ => v

/-- `extract_product_name` (lines 440-514): cascade with default `"N/A"`;
its regex stage (lines 503-511) can produce `reject` outcomes. -/
def extract_product_name (outcomes : List ScalarOutcome) : Str :=
  cascadeScalar "N/A".data outcomes

/-- `extract_price` (lines 516-572): cascade with default `"N/A"`. Every
price strategy returns immediately on any match (lines 527-567 have no
post-assignment acceptance check), so its outcomes are only
`err`/`miss`/`accept` — stated as a hypothesis where it matters. -/
def extract_price (outcomes : List ScalarOutcome) : Str :=
  cascadeScalar "N/A".data outcomes

/-- `extract_description` (lines 574-677): cascade with default `"N/A"`;
its regex stage (lines 666-674) can produce `reject` outcomes. -/
def extract_description (outcomes : List ScalarOutcome) : Str :=
  cascadeScalar "N/A".data outcomes

/-- The collection-time exact-string dedup of `extract_images`
(lines 716-718, 751-752, 782-783): append each candidate not already
present, preserving order. -/
def appendUnique (images : List Str) : List Str → List Str
  | [] => images
  | u :: rest =>
    if images.contains u then appendUnique images rest
    else appendUnique (images ++ [u]) rest

/-- Method 3 of `extract_images` (lines 758-789): runs only when fewer
than 2 images were found; its JavaScript errors are caught locally
(`js_err` handler), so an `err` outcome leaves the list unchanged. -/
def imagesStage3 (images : List Str) (js : StrategyOutcome (List Str)) : List Str :=
  if images.length < 2 then
    match js with
    | .hit l => appendUnique images l
    | _ => images
  else images

/-- Method 2 of `extract_images` (lines 726-756): runs only when Method 1
found nothing; an exception here propagates to the outer handler, which
returns the images collected so far. -/
def imagesStage2 (images : List Str)
    (json js : StrategyOutcome (List Str)) : List Str :=
  if images.isEmpty then
    match json with
    | .err => images
    | .hit l => imagesStage3 (appendUnique images l) js
    | .miss => imagesStage3 images js
  else imagesStage3 images js

/-- `extract_images` (lines 679-794): selector scan, then JSON-pattern
scan if empty, then JavaScript attribute scan if fewer than 2 images;
candidate lists arrive already protocol-fixed; a selector-stage exception
aborts to the outer handler with the empty list. -/
def extract_images (sel json js : StrategyOutcome (List Str)) : List Str :=
  match sel with
  | .err => []
  | .hit l => imagesStage2 (appendUnique [] l) json js
  | .miss => imagesStage2 [] json js

/-- The shared shape of `extract_variations` (lines 992-1045),
`extract_shipping_info` (lines 1047-1086) and `extract_seller_info`
(lines 1088-1129): a selector stage, then — only if it produced nothing —
a structured-data (JSON) stage; an uncaught exception returns whatever was
accumulated, which is empty in the all-fail case. -/
def cascadeSelectorJson (sel json : StrategyOutcome (List (Str × Str))) :
    List (Str × Str) :=
  match sel with
  | .err => []
  | .hit l =>
    if l.isEmpty then
      match json with
      | .hit j => j
      | _ => []
    else l
  | .miss =>
    match json with
    | .hit j => j
    | _ => []

/-- `extract_variations` (lines 992-1045): list of name/value pairs. -/
def extract_variations (sel json : StrategyOutcome (List (Str × Str))) :
    List (Str × Str) :=
  cascadeSelectorJson sel json

/-- `extract_shipping_info` (lines 1047-1086): key/value mapping, as an
association list. -/
def extract_shipping_info (sel json : StrategyOutcome (List (Str × Str))) :
    List (Str × Str) :=
  cascadeSelectorJson sel json

/-- `extract_seller_info` (lines 1088-1129): key/value mapping, as an
association list. -/
def extract_seller_info (sel json : StrategyOutcome (List (Str × Str))) :
    List (Str × Str) :=
  cascadeSelectorJson sel json

/-! ## Dedup tracker -/

/-- `is_duplicate_image` (lines 1131-1149). `fetch url` models
`requests.get`: `some bytes` for a 200 response, `none` for a non-200
status or a raised exception (both make the function fall through to
`return False` without touching the hash set). `md5` abstracts
`hashlib.md5(...).hexdigest()`. Returns the verdict together with the
updated `self.image_hashes` set. -/
def is_duplicate_image (md5 : List Nat → Nat) (fetch : Str → Option (List Nat))
    (hashes : Finset Nat) (url : Str) : Bool × Finset Nat :=
  match fetch url with
  | some content =>
    let h := md5 content
    if h ∈ hashes then (true, hashes) else (false, insert h hashes)
  | none => (false, hashes)

/-! ## Record assembly (`scrape_product`) -/

/-- The image loop of `scrape_product` (lines 847-856): for each candidate
URL, skip it when `is_duplicate_image` says duplicate, otherwise attempt
`download_image` (with a fresh uuid fragment, supplied here as `uid i`)
and keep the returned local path when the download succeeded. The hash
set threads through the calls. -/
def downloadImagesLoop (md5 : List Nat → Nat)
    (fetchBytes : Str → Option (List Nat)) (fetchImg : Str → Bool)
    (uid : Nat → Str) (name : Str) :
    List Str → Finset Nat → Nat → List Str × Finset Nat
  | [], hashes, _ => ([], hashes)
  | u :: rest, hashes, i =>
    let r := is_duplicate_image md5 fetchBytes hashes u
    if r.1 then downloadImagesLoop md5 fetchBytes fetchImg uid name rest r.2 i
    else
      match downloadImage fetchImg (uid i) u name with
      | some path =>
        let dlRest := downloadImagesLoop md5 fetchBytes fetchImg uid name rest r.2 (i + 1)
        (path :: dlRest.1, dlRest.2)
      | none => downloadImagesLoop md5 fetchBytes fetchImg uid name rest r.2 (i + 1)

/-- The WooCommerce row built in `scrape_product` (lines 883-897). -/
structure ProductRecord where
  SKU : Str
  Name : Str
  RegularPrice : Str
  Description : Str
  ShortDescr : Str
  Images : Str
  InStock : Nat
  ProdType : Str
  Categories : Str
  OriginalURL : Str
  Variations : Str
  ShippingInfo : Str
  SellerInfo : Str
deriving DecidableEq

/-- Python `sep.join(pieces)` for a one-character separator. -/
def joinSep (sep : Char) : List Str → Str
  | [] => []
  | [x] => x
  | x :: y :: xs => x ++ sep :: joinSep sep (y :: xs)

/-- The translation step of `scrape_product` (lines 837-845): text equal
to `"N/A"` is passed through untranslated. -/
def translateField (translate : Str → Str) (s : Str) : Str :=
  if s = "N/A".data then s else translate s

/-- `scrape_product` (lines 796-906) after the extraction calls: given the
extracted fields, run translation, the image download loop, truncation and
assembly, returning the success flag, the appended record and the updated
hash set. Control flow contains no failure branch after extraction, so
the flag is `true` (an exception would abort the record entirely — the
record below is exactly what a successful pass appends). -/
def scrapeProduct (md5 : List Nat → Nat)
    (fetchBytes : Str → Option (List Nat)) (fetchImg : Str → Bool)
    (uid : Nat → Str) (skuId : Str) (translate : Str → Str) (url : Str)
    (name price description : Str) (imageUrls : List Str)
    (variations : List (Str × Str)) (shipping seller : List (Str × Str))
    (hashes : Finset Nat) : Bool × ProductRecord × Finset Nat :=
  let name_en := translateField translate name
  let description_en := translateField translate description
  let dl := downloadImagesLoop md5 fetchBytes fetchImg uid name_en imageUrls hashes 0
  let localImagePaths := dl.1
  let variationData := variations.map fun v => v.1 ++ ": ".data ++ v.2
  let shippingText := shipping.map fun v => v.1 ++ ": ".data ++ v.2
  let sellerText := seller.map fun v => v.1 ++ ": ".data ++ v.2
  let record : ProductRecord :=
    { SKU := "IMP-".data ++ skuId
      Name := name_en
      RegularPrice := price
      Description := description_en
      ShortDescr := shortDescription description_en
      Images := joinSep ',' localImagePaths
      InStock := 1
      ProdType := if variations.isEmpty then "simple".data else "variable".data
      Categories := "Imported Products".data
      OriginalURL := url
      Variations := joinSep '|' variationData
      ShippingInfo := joinSep '|' shippingText
      SellerInfo := joinSep '|' sellerText }
  (true, record, dl.2)

/-! ## Batch driver (`scrape_all_products`) -/

/-- Line filtering in `scrape_all_products` (lines 926-927):
`[line.strip() for line in f if line.strip()]`. -/
def readUrls (lines : List Str) : List Str :=
  lines.filterMap fun l =>
    let s := pyStrip l
    if s.isEmpty then none else some s

/-- Result of a batch run: the boolean returned by `scrape_all_products`
and the rows written to the CSV (empty when nothing is written). -/
structure BatchResult where
  success : Bool
  written : List ProductRecord
deriving DecidableEq

/-- `scrape_all_products` (lines 908-982), I/O abstracted: `outcome u`
models one `scrape_product` call (the record it appends, or `none` for a
failed URL). Returns `False` immediately when the stripped URL list is
empty (line 929-931); URLs not starting with `http` are skipped before
submission (lines 952-955); the CSV is written and `True` returned only
when at least one record was produced (lines 973-982). -/
def scrape_all_products (lines : List Str)
    (outcome : Str → Option ProductRecord) : BatchResult :=
  let urls := readUrls lines
  if urls.isEmpty then { success := false, written := [] }
  else
    let products := (urls.filter (startsWith "http".data)).filterMap outcome
    if products.isEmpty then { success := false, written := [] }
    else { success := true, written := products }

/-- A strategy that fails: it raised, or yielded nothing acceptable. -/
def strategyFailed {α : Type} (o : StrategyOutcome α) : Prop :=
  o = .err ∨ o = .miss

/-- The URLs actually submitted to `scrape_product` by
`scrape_all_products` (lines 950-962): stripped non-blank lines that
start with `http`; any other line is logged and skipped. -/
def processedUrls (lines : List Str) : List Str :=
  (readUrls lines).filter (startsWith "http".data)

/-- Whether a string ends in one of the recognized image extensions,
used to state the spec's acceptance condition. -/
def endsInImageExt (u : Str) : Bool :=
  imageExts.any fun e => ('.' :: e).isSuffixOf u

/-- A fixed sample output row, used to instantiate batch-level
statements. -/
def sampleRecord : ProductRecord :=
  { SKU := [], Name := [], RegularPrice := [], Description := [],
    ShortDescr := [], Images := [], InStock := 1, ProdType := [],
    Categories := [], OriginalURL := [], Variations := [],
    ShippingInfo := [], SellerInfo := [] }

/-! ## Helper lemmas -/

theorem startsWith_append_self (p s : Str) : startsWith p (p ++ s) = true := by
  induction p with
  | nil => rfl
  | cons c cs ih => simp [startsWith, ih]

theorem startsWith_two (a b : Char) (u : Str) (h : startsWith [a, b] u = true) :
    ∃ t, u = a :: b :: t := by
  match u with
  | [] => simp [startsWith] at h
  | [c] => simp [startsWith] at h
  | c :: d :: t =>
    simp [startsWith] at h
    exact ⟨t, by rw [h.1, h.2]⟩

theorem startsWith_one (a : Char) (u : Str) (h : startsWith [a] u = true) :
    ∃ t, u = a :: t := by
  match u with
  | [] => simp [startsWith] at h
  | c :: t =>
    simp [startsWith] at h
    exact ⟨t, by rw [h]⟩

theorem startsWith_cons_ne (p c : Char) (ps s : Str) (h : (p == c) = false) :
    startsWith (p :: ps) (c :: s) = false := by
  simp [startsWith]
  intro he
  rw [he] at h
  simp at h

/-- Every result of `cleanImageUrl` carries an `http://` or `https://`
scheme. -/
theorem cleanImageUrl_scheme (u : Str) :
    (startsWith "http://".data (cleanImageUrl u)
      || startsWith "https://".data (cleanImageUrl u)) = true := by
  unfold cleanImageUrl
  split_ifs with h1 h2
  · exact h1
  · have h2' : startsWith ['/', '/'] u = true := h2
    obtain ⟨t, rfl⟩ := startsWith_two '/' '/' u h2'
    have he : "https:".data ++ ('/' :: '/' :: t) = "https://".data ++ t := rfl
    rw [he, startsWith_append_self]
    simp
  · rw [startsWith_append_self]
    simp

/-- C3. URL normalization (the cleanup step of `download_image`) is
idempotent: on any input accepted by the emptiness gate, the cleaned URL
is again accepted and cleaning it a second time changes nothing. -/
theorem cleanImageUrl_idempotent (u : Str) (h : u ≠ []) :
    cleanImageUrl u ≠ [] ∧ cleanImageUrl (cleanImageUrl u) = cleanImageUrl u := by
  have hs := cleanImageUrl_scheme u
  have key : ∀ v : Str,
      (startsWith "http://".data v || startsWith "https://".data v) = true →
      cleanImageUrl v = v := by
    intro v hv
    simp [cleanImageUrl, hv]
  refine ⟨?_, key _ hs⟩
  intro hnil
  rw [hnil] at hs
  exact absurd hs (by decide)

/-- Witness for C3 at a concrete scheme-less input. -/
theorem cleanImageUrl_idempotent_witness :
    cleanImageUrl "a.com/x.jpg".data ≠ [] ∧
    cleanImageUrl (cleanImageUrl "a.com/x.jpg".data) = cleanImageUrl "a.com/x.jpg".data :=
  cleanImageUrl_idempotent "a.com/x.jpg".data (by decide)

/-- C4. Short-description truncation: an input of at most 150 characters
passes through unchanged; a longer input is cut so that, ellipsis
included, the result has length at most 150 and ends in the 3-character
ellipsis marker. -/
theorem shortDescription_spec (s : Str) :
    (s.length ≤ 150 → shortDescription s = s) ∧
    (150 < s.length →
      (shortDescription s).length ≤ 150 ∧
      ∃ t, shortDescription s = t ++ "...".data) := by
  constructor
  · intro h
    simp [shortDescription, Nat.not_lt.mpr h]
  · intro h
    rw [shortDescription, if_pos h]
    refine ⟨?_, s.take 147, rfl⟩
    have ht : (s.take 147).length = 147 := by
      rw [List.length_take]
      omega
    simp [List.length_append, ht]

/-- Witness for C4 at a 151-character input and a 2-character input. -/
theorem shortDescription_spec_witness :
    shortDescription "ab".data = "ab".data ∧
    ((shortDescription (List.replicate 151 'a')).length ≤ 150 ∧
      ∃ t, shortDescription (List.replicate 151 'a') = t ++ "...".data) :=
  ⟨(shortDescription_spec "ab".data).1 (by decide),
   (shortDescription_spec (List.replicate 151 'a')).2 (by simp)⟩

/-! ## Extraction-cascade properties -/

/-- A cascade whose strategies only raise or match nothing returns the
default untouched. -/
theorem cascadeScalar_err_miss (acc : Str) (l : List ScalarOutcome)
    (h : ∀ o ∈ l, o = ScalarOutcome.err ∨ o = ScalarOutcome.miss) :
    cascadeScalar acc l = acc := by
  induction l with
  | nil => rfl
  | cons o rest ih =>
    rcases h o (by simp) with h' | h' <;> subst h'
    · rfl
    · exact ih fun o ho => h o (List.mem_cons_of_mem _ ho)

/-- A cascade in which every strategy fails returns either the default or
the value left behind by one of the rejecting strategies. -/
theorem cascadeScalar_failed (l : List ScalarOutcome) :
    ∀ acc : Str, (∀ o ∈ l, scalarFailed o = true) →
      cascadeScalar acc l = acc ∨
      ∃ v, ScalarOutcome.reject v ∈ l ∧ cascadeScalar acc l = v := by
  induction l with
  | nil => exact fun acc _ => Or.inl rfl
  | cons o rest ih =>
    intro acc h
    cases o with
    | err => exact Or.inl rfl
    | miss =>
      rcases ih acc (fun o ho => h o (List.mem_cons_of_mem _ ho)) with
        h1 | ⟨v, hv, he⟩
      · exact Or.inl h1
      · exact Or.inr ⟨v, List.mem_cons_of_mem _ hv, he⟩
    | reject w =>
      rcases ih w (fun o ho => h o (List.mem_cons_of_mem _ ho)) with
        h1 | ⟨v, hv, he⟩
      · exact Or.inr ⟨w, List.mem_cons_self _ _, h1⟩
      · exact Or.inr ⟨v, List.mem_cons_of_mem _ hv, he⟩
    | accept v =>
      exact absurd (h _ (List.mem_cons_self _ _)) (by simp [scalarFailed])

theorem extract_images_all_failed (sel json js : StrategyOutcome (List Str))
    (h1 : strategyFailed sel) (h2 : strategyFailed json)
    (h3 : strategyFailed js) : extract_images sel json js = [] := by
  rcases h1 with h | h <;> subst h
  · rfl
  · rcases h2 with h | h <;> subst h
    · rfl
    · rcases h3 with h | h <;> subst h <;> rfl

theorem cascadeSelectorJson_all_failed
    (sel json : StrategyOutcome (List (Str × Str)))
    (h1 : strategyFailed sel) (h2 : strategyFailed json) :
    cascadeSelectorJson sel json = [] := by
  rcases h1 with h | h <;> subst h
  · rfl
  · rcases h2 with h | h <;> subst h <;> rfl

/-- C5, counterexample. A run of `extract_product_name` in which the
only strategy fails — its regex stage matches `<title>ab</title>` but
the value fails the `len > 3` acceptance check (lines 503-511) —
returns the leftover `"ab"`, not the defined default `"N/A"`. -/
theorem scalar_leftover_cex :
    scalarFailed (ScalarOutcome.reject "ab".data) = true ∧
    extract_product_name [ScalarOutcome.reject "ab".data] = "ab".data ∧
    "ab".data ≠ "N/A".data :=
  ⟨rfl, rfl, by decide⟩

/-- C5, amended. Every per-field extractor is a total function of the
strategy outcomes (no exception reaches the caller — raised strategies
are `err` outcomes absorbed by the handlers). On total failure the
collection extractors return the empty collection and `extract_price`
returns `"N/A"` (its strategies return on any match, so they fail only
by raising or matching nothing); `extract_product_name` and
`extract_description` return `"N/A"` unless one of their failing regex
strategies matched an unacceptable value, in which case that leftover
value is returned instead. -/
theorem extractors_defaults_or_leftover_on_failure
    (ns ps ds : List ScalarOutcome)
    (sel json js : StrategyOutcome (List Str))
    (selv jsonv sels jsons selr jsonr : StrategyOutcome (List (Str × Str)))
    (hn : ∀ o ∈ ns, scalarFailed o = true)
    (hp : ∀ o ∈ ps, o = ScalarOutcome.err ∨ o = ScalarOutcome.miss)
    (hd : ∀ o ∈ ds, scalarFailed o = true)
    (h1 : strategyFailed sel) (h2 : strategyFailed json)
    (h3 : strategyFailed js)
    (h4 : strategyFailed selv) (h5 : strategyFailed jsonv)
    (h6 : strategyFailed sels) (h7 : strategyFailed jsons)
    (h8 : strategyFailed selr) (h9 : strategyFailed jsonr) :
    (extract_product_name ns = "N/A".data ∨
      ∃ v, ScalarOutcome.reject v ∈ ns ∧ extract_product_name ns = v) ∧
    extract_price ps = "N/A".data ∧
    (extract_description ds = "N/A".data ∨
      ∃ v, ScalarOutcome.reject v ∈ ds ∧ extract_description ds = v) ∧
    extract_images sel json js = [] ∧
    extract_variations selv jsonv = [] ∧
    extract_shipping_info sels jsons = [] ∧
    extract_seller_info selr jsonr = [] :=
  ⟨cascadeScalar_failed ns "N/A".data hn,
   cascadeScalar_err_miss "N/A".data ps hp,
   cascadeScalar_failed ds "N/A".data hd,
   extract_images_all_failed sel json js h1 h2 h3,
   cascadeSelectorJson_all_failed selv jsonv h4 h5,
   cascadeSelectorJson_all_failed sels jsons h6 h7,
   cascadeSelectorJson_all_failed selr jsonr h8 h9⟩

/-- Witness for the amended C5 on concrete all-failing cascades,
including a rejecting description strategy. -/
theorem extractors_defaults_or_leftover_on_failure_witness :
    (extract_product_name [ScalarOutcome.err] = "N/A".data ∨
      ∃ v, ScalarOutcome.reject v ∈ [ScalarOutcome.err] ∧
        extract_product_name [ScalarOutcome.err] = v) ∧
    extract_price [ScalarOutcome.miss] = "N/A".data ∧
    (extract_description [ScalarOutcome.reject "ab".data] = "N/A".data ∨
      ∃ v, ScalarOutcome.reject v ∈ [ScalarOutcome.reject "ab".data] ∧
        extract_description [ScalarOutcome.reject "ab".data] = v) ∧
    extract_images .miss .miss .err = [] ∧
    extract_variations .miss .err = [] ∧
    extract_shipping_info .err .miss = [] ∧
    extract_seller_info .miss .miss = [] :=
  extractors_defaults_or_leftover_on_failure [ScalarOutcome.err]
    [ScalarOutcome.miss] [ScalarOutcome.reject "ab".data]
    .miss .miss .err .miss .err .err .miss .miss .miss
    (by decide) (by decide) (by decide)
    (Or.inr rfl) (Or.inr rfl) (Or.inl rfl) (Or.inr rfl) (Or.inl rfl)
    (Or.inl rfl) (Or.inr rfl) (Or.inr rfl) (Or.inr rfl)

/-! ## Dedup-tracker properties -/

/-- C6. The duplicate check: two calls whose fetched bytes coincide (even
at distinct URLs) make the second call report a duplicate; a call whose
fetch fails reports "not a duplicate" (fail-open). -/
theorem is_duplicate_image_spec (md5 : List Nat → Nat)
    (fetch : Str → Option (List Nat)) (hashes : Finset Nat)
    (u1 u2 u3 : Str) (b : List Nat)
    (hf1 : fetch u1 = some b) (hf2 : fetch u2 = some b)
    (hf3 : fetch u3 = none) :
    (is_duplicate_image md5 fetch
      (is_duplicate_image md5 fetch hashes u1).2 u2).1 = true ∧
    (is_duplicate_image md5 fetch hashes u3).1 = false := by
  constructor
  · have hmem : md5 b ∈ (is_duplicate_image md5 fetch hashes u1).2 := by
      rw [is_duplicate_image, hf1]
      by_cases hc : md5 b ∈ hashes
      · simpa [hc]
      · simp [hc]
    rw [is_duplicate_image, hf2]
    simp [hmem]
  · rw [is_duplicate_image, hf3]

/-- Witness for C6 with a concrete fetch environment. -/
theorem is_duplicate_image_spec_witness :
    (is_duplicate_image (fun _ => 7)
      (fun u => if u = "c".data then none else some [1])
      ((is_duplicate_image (fun _ => 7)
        (fun u => if u = "c".data then none else some [1])
        (∅ : Finset Nat) "a".data).2) "b".data).1 = true ∧
    (is_duplicate_image (fun _ => 7)
      (fun u => if u = "c".data then none else some [1])
      (∅ : Finset Nat) "c".data).1 = false :=
  is_duplicate_image_spec (fun _ => 7)
    (fun u => if u = "c".data then none else some [1]) ∅
    "a".data "b".data "c".data [1] (by decide) (by decide) (by decide)

/-- C10. The hash set only grows: each call leaves it a superset of its
previous value, inserts at most one new hash, and reports a duplicate
only when the hash of the fetched bytes was already present before the
call. -/
theorem is_duplicate_image_hashes_monotone (md5 : List Nat → Nat)
    (fetch : Str → Option (List Nat)) (hashes : Finset Nat) (u : Str) :
    hashes ⊆ (is_duplicate_image md5 fetch hashes u).2 ∧
    ((is_duplicate_image md5 fetch hashes u).2 \ hashes).card ≤ 1 ∧
    ((is_duplicate_image md5 fetch hashes u).1 = true →
      ∃ b, fetch u = some b ∧ md5 b ∈ hashes) := by
  rw [is_duplicate_image]
  cases hf : fetch u with
  | none => simp
  | some content =>
    by_cases hc : md5 content ∈ hashes
    · simp only [hc, if_pos]
      refine ⟨Finset.Subset.refl _, ?_, fun _ => ⟨content, rfl, hc⟩⟩
      simp
    · simp only [hc, if_neg, not_false_iff]
      refine ⟨Finset.subset_insert _ _, ?_, by simp⟩
      have hsub : insert (md5 content) hashes \ hashes ⊆ {md5 content} := by
        intro x hx
        rw [Finset.mem_sdiff, Finset.mem_insert] at hx
        rcases hx with ⟨hx1 | hx1, hx2⟩
        · simp [hx1]
        · exact absurd hx1 hx2
      calc (insert (md5 content) hashes \ hashes).card
          ≤ ({md5 content} : Finset Nat).card := Finset.card_le_card hsub
        _ = 1 := Finset.card_singleton _

/-- Witness for C10 at a concrete duplicate-reporting call. -/
theorem is_duplicate_image_hashes_monotone_witness :
    ({0} : Finset Nat) ⊆
      (is_duplicate_image (fun _ => 0) (fun _ => some ([] : List Nat))
        ({0} : Finset Nat) "u".data).2 ∧
    ((is_duplicate_image (fun _ => 0) (fun _ => some ([] : List Nat))
        ({0} : Finset Nat) "u".data).2 \ ({0} : Finset Nat)).card ≤ 1 ∧
    ∃ b, (fun _ : Str => some ([] : List Nat)) "u".data = some b ∧
      (fun _ : List Nat => (0 : Nat)) b ∈ ({0} : Finset Nat) := by
  obtain ⟨ha, hb, hcim⟩ := is_duplicate_image_hashes_monotone
    (fun _ => 0) (fun _ => some ([] : List Nat)) ({0} : Finset Nat) "u".data
  exact ⟨ha, hb, hcim (by decide)⟩

/-! ## Input-file and batch properties -/

theorem dropWhile_append_singleton (p : Char → Bool) (x : Str) (c : Char)
    (h : p c = false) : ∃ y, (x ++ [c]).dropWhile p = y ++ [c] := by
  induction x with
  | nil => exact ⟨[], by simp [List.dropWhile_cons, h]⟩
  | cons a x' ih =>
    by_cases ha : p a = true
    · obtain ⟨y, hy⟩ := ih
      exact ⟨y, by simp [List.dropWhile_cons, ha, hy]⟩
    · exact ⟨a :: x', by simp [List.dropWhile_cons, ha]⟩

/-- `strip` never removes a leading non-whitespace character. -/
theorem pyStrip_cons_of_not_space (c : Char) (s : Str)
    (h : isSpaceChar c = false) : ∃ t, pyStrip (c :: s) = c :: t := by
  unfold pyStrip
  rw [List.dropWhile_cons, if_neg (by simp [h])]
  obtain ⟨y, hy⟩ :=
    dropWhile_append_singleton isSpaceChar s.reverse c h
  rw [List.reverse_cons, hy]
  exact ⟨y.reverse, by simp⟩

/-- C8. Line filtering of the input URL file: a blank line (one that
strips to nothing) or a line starting with `#` is never among the URLs
submitted to `scrape_product` — blank lines are dropped by the
comprehension, `#` lines by the `startswith('http')` guard. -/
theorem blank_and_comment_lines_ignored (lines : List Str) (l : Str)
    (hmem : l ∈ lines)
    (hcase : pyStrip l = [] ∨ startsWith "#".data l = true) :
    pyStrip l ∉ processedUrls lines := by
  intro hin
  have hh : startsWith "http".data (pyStrip l) = true :=
    (List.mem_filter.mp hin).2
  rcases hcase with hb | hc
  · rw [hb] at hh
    exact absurd hh (by decide)
  · have hc' : startsWith ['#'] l = true := hc
    obtain ⟨t, rfl⟩ := startsWith_one '#' l hc'
    obtain ⟨t', ht'⟩ := pyStrip_cons_of_not_space '#' t (by decide)
    rw [ht'] at hh
    have hh' : startsWith ('h' :: "ttp".data) ('#' :: t') = true := hh
    rw [startsWith_cons_ne 'h' '#' _ _ (by decide)] at hh'
    exact absurd hh' (by decide)

/-- Witness for C8: a comment line and a blank line in a concrete file. -/
theorem blank_and_comment_lines_ignored_witness :
    pyStrip "# note".data ∉
      processedUrls ["# note".data, "  ".data, "https://x.com/a".data] ∧
    pyStrip "  ".data ∉
      processedUrls ["# note".data, "  ".data, "https://x.com/a".data] :=
  ⟨blank_and_comment_lines_ignored _ "# note".data (by decide)
      (Or.inr (by decide)),
   blank_and_comment_lines_ignored _ "  ".data (by decide)
      (Or.inl (by decide))⟩

/-- C9. Batch outcome of `scrape_all_products`: with no URLs after
stripping, or with zero records produced, the run reports `False`; as
soon as at least one record exists, the run reports `True` and exactly
those records are written, regardless of how many other URLs failed. -/
theorem scrape_all_products_batch_outcome (lines : List Str)
    (outcome : Str → Option ProductRecord) :
    ((readUrls lines = [] ∨ (processedUrls lines).filterMap outcome = []) →
      (scrape_all_products lines outcome).success = false ∧
      (scrape_all_products lines outcome).written = []) ∧
    ((processedUrls lines).filterMap outcome ≠ [] →
      (scrape_all_products lines outcome).success = true ∧
      (scrape_all_products lines outcome).written =
        (processedUrls lines).filterMap outcome) := by
  unfold scrape_all_products processedUrls
  by_cases h1 : readUrls lines = []
  · simp [h1]
  · rw [if_neg (by simpa using h1)]
    by_cases h2 : ((readUrls lines).filter (startsWith "http".data)).filterMap outcome = []
    · simp [h2]
    · rw [if_neg (by simpa using h2)]
      simp [h1, h2]

/-- Witness for C9: an empty file reports failure; a one-URL file whose
scrape succeeds reports success with that record written. -/
theorem scrape_all_products_batch_outcome_witness :
    ((scrape_all_products [] (fun _ => some sampleRecord)).success = false ∧
      (scrape_all_products [] (fun _ => some sampleRecord)).written = []) ∧
    ((scrape_all_products ["https://x.com/a".data]
        (fun _ => some sampleRecord)).success = true ∧
      (scrape_all_products ["https://x.com/a".data]
        (fun _ => some sampleRecord)).written =
        (processedUrls ["https://x.com/a".data]).filterMap
          (fun _ => some sampleRecord)) :=
  ⟨(scrape_all_products_batch_outcome [] (fun _ => some sampleRecord)).1
      (Or.inl rfl),
   (scrape_all_products_batch_outcome ["https://x.com/a".data]
      (fun _ => some sampleRecord)).2 (by decide)⟩

/-! ## URL normalization: what the code actually guarantees -/

theorem dropWhile_subset_mem (p : Char → Bool) (l : Str) {x : Char}
    (h : x ∈ l.dropWhile p) : x ∈ l := by
  induction l with
  | nil => simpa using h
  | cons a t ih =>
    rw [List.dropWhile_cons] at h
    split_ifs at h with hp
    · exact List.mem_cons_of_mem a (ih h)
    · exact h

theorem mem_of_mem_pyStrip {x : Char} {s : Str} (h : x ∈ pyStrip s) :
    x ∈ s := by
  unfold pyStrip at h
  rw [List.mem_reverse] at h
  have h2 := dropWhile_subset_mem _ _ h
  rw [List.mem_reverse] at h2
  exact dropWhile_subset_mem _ _ h2

/-- The safe filename stem never contains a query character. -/
theorem safeName_no_qmark (name : Str) : '?' ∉ safeName name := by
  have hbase : ∀ x ∈ (pyStrip (name.filter isKeptNameChar)).map
      (fun c => if c == ' ' then '_' else c), ¬ x = '?' := by
    intro x hx
    rw [List.mem_map] at hx
    obtain ⟨c, hc, hfc⟩ := hx
    have hc' : c ∈ name.filter isKeptNameChar := mem_of_mem_pyStrip hc
    have hk : isKeptNameChar c = true := (List.mem_filter.mp hc').2
    by_cases hsp : (c == ' ') = true
    · rw [if_pos hsp] at hfc
      subst hfc
      decide
    · rw [if_neg hsp] at hfc
      subst hfc
      intro hq
      rw [hq] at hk
      exact absurd hk (by decide)
  show '?' ∉ (if ((pyStrip (name.filter isKeptNameChar)).map
      (fun c => if c == ' ' then '_' else c)).isEmpty then "product".data
    else (pyStrip (name.filter isKeptNameChar)).map
      (fun c => if c == ' ' then '_' else c))
  split_ifs with he
  · decide
  · intro hmem
    exact hbase '?' hmem rfl

/-- The chosen file extension is always a dot followed by one of the
recognized extensions (`.jpg` when nothing else fits). -/
theorem fileExt_mem (v : Str) : ∃ e, e ∈ imageExts ∧ fileExt v = '.' :: e := by
  have hfe : fileExt v =
      (if ((pySplit '/' ((pySplit '?' v).headD [])).getLastD []).contains '.'
        then
          (if imageExts.contains
              (((pySplit '.' ((pySplit '/' ((pySplit '?' v).headD
                [])).getLastD [])).getLastD []).map Char.toLower)
            then '.' :: (((pySplit '.' ((pySplit '/' ((pySplit '?' v).headD
                [])).getLastD [])).getLastD []).map Char.toLower)
            else ".jpg".data)
        else ".jpg".data) := rfl
  rw [hfe]
  split_ifs with h1 h2
  · exact ⟨_, List.mem_of_elem_eq_true h2, rfl⟩
  · exact ⟨"jpg".data, by decide, rfl⟩
  · exact ⟨"jpg".data, by decide, rfl⟩

/-- C1, counterexample. A candidate URL carrying the low-quality marker
`_50x50` is not rejected anywhere: `download_image` accepts it, and the
assembled record's image set retains its downloaded local path. -/
theorem marker_url_retained_cex :
    containsLowQualityMarker "https://cdn.example.com/img_50x50.jpg".data = true ∧
    (scrapeProduct (fun _ => 0) (fun _ => some []) (fun _ => true)
      (fun _ => "abcd1234".data) "sku00000".data (fun s => s)
      "https://detail.1688.com/offer/1.html".data
      "Cup".data "1".data "desc".data
      ["https://cdn.example.com/img_50x50.jpg".data] [] [] [] ∅).2.1.Images =
      "product_images/Cup_abcd1234.jpg".data :=
  ⟨by decide, by rfl⟩

/-- C1, amended. The code performs no low-quality filtering: a candidate
URL containing a low-quality marker is accepted by `download_image` like
any other non-empty URL whose fetch succeeds, and so is retained. -/
theorem marker_url_not_rejected (fetchImg : Str → Bool) (uid u name : Str)
    (hm : containsLowQualityMarker u = true) (hne : u ≠ [])
    (hf : fetchImg (cleanImageUrl u) = true) :
    (downloadImage fetchImg uid u name).isSome = true := by
  unfold downloadImage
  rw [if_neg (by simpa using hne)]
  simp [hf]

/-- Witness for the amended C1. -/
theorem marker_url_not_rejected_witness :
    (downloadImage (fun _ => true) "abcd1234".data
      "https://cdn.example.com/img_50x50.jpg".data "Cup".data).isSome = true :=
  marker_url_not_rejected (fun _ => true) "abcd1234".data
    "https://cdn.example.com/img_50x50.jpg".data "Cup".data
    (by decide) (by decide) rfl

/-- C2, counterexample. An accepted input whose cleaned (normalized) URL
keeps its query string, does not end in a recognized image extension, and
still contains a low-quality marker: acceptance constrains none of the
three. -/
theorem accepted_url_shape_cex :
    cleanImageUrl "https://cdn.example.com/pic_50x50.bin?x=1".data =
      "https://cdn.example.com/pic_50x50.bin?x=1".data ∧
    downloadImage (fun _ => true) "abcd1234".data
      "https://cdn.example.com/pic_50x50.bin?x=1".data "Cup".data =
      some "product_images/Cup_abcd1234.jpg".data ∧
    endsInImageExt "https://cdn.example.com/pic_50x50.bin?x=1".data = false ∧
    "https://cdn.example.com/pic_50x50.bin?x=1".data.contains '?' = true ∧
    containsLowQualityMarker "https://cdn.example.com/pic_50x50.bin?x=1".data
      = true :=
  ⟨by rfl, by rfl, by decide, by decide, by decide⟩

/-- Unfolding equation for `downloadImage`. -/
theorem downloadImage_eq (fetchImg : Str → Bool) (uid imageUrl productName : Str) :
    downloadImage fetchImg uid imageUrl productName =
      if imageUrl.isEmpty then none
      else if fetchImg (cleanImageUrl imageUrl) then
        some ("product_images/".data ++ (safeName productName ++ ['_'] ++ uid
          ++ fileExt (cleanImageUrl imageUrl)))
      else none := rfl

/-- C2, amended. What acceptance does guarantee: every local file path
returned by `download_image` ends in a dot followed by one of the
recognized image extensions, and — as long as the generated unique id
contains no `?` — the path contains no query character. The accepted
URL itself is unconstrained. -/
theorem accepted_path_shape (fetchImg : Str → Bool) (uid u name path : Str)
    (hq : '?' ∉ uid) (h : downloadImage fetchImg uid u name = some path) :
    (∃ e t, e ∈ imageExts ∧ path = t ++ '.' :: e) ∧ '?' ∉ path := by
  rw [downloadImage_eq] at h
  by_cases h1 : u.isEmpty = true
  · rw [if_pos h1] at h
    exact absurd h (by simp)
  rw [if_neg h1] at h
  by_cases h2 : fetchImg (cleanImageUrl u) = true
  case neg =>
    rw [if_neg h2] at h
    exact absurd h (by simp)
  case pos =>
    rw [if_pos h2] at h
    have hp : path = "product_images/".data ++
        (safeName name ++ ['_'] ++ uid ++ fileExt (cleanImageUrl u)) :=
      (Option.some_inj.mp h).symm
    obtain ⟨e, he, hfe⟩ := fileExt_mem (cleanImageUrl u)
    have k1 : '?' ∉ "product_images/".data := by decide
    have k2 := safeName_no_qmark name
    have k3 : '?' ∉ ['_'] := by decide
    have k5 : '?' ∉ '.' :: e := by
      intro hm
      rcases List.mem_cons.mp hm with hem | hem
      · exact absurd hem (by decide)
      · have hall : ∀ x ∈ imageExts, '?' ∉ x := by decide
        exact hall e he hem
    constructor
    · refine ⟨e, "product_images/".data ++ (safeName name ++ ['_'] ++ uid),
        he, ?_⟩
      rw [hp, hfe]
      simp [List.append_assoc]
    · rw [hp, hfe]
      intro hmem
      simp only [List.mem_append] at hmem
      rcases hmem with hm | (((hm | hm) | hm) | hm)
      · exact k1 hm
      · exact k2 hm
      · exact k3 hm
      · exact hq hm
      · exact k5 hm

/-- Witness for the amended C2. -/
theorem accepted_path_shape_witness :
    (∃ e t, e ∈ imageExts ∧
      "product_images/Cup_abcd1234.jpg".data = t ++ '.' :: e) ∧
    '?' ∉ "product_images/Cup_abcd1234.jpg".data :=
  accepted_path_shape (fun _ => true) "abcd1234".data
    "https://a.com/x.jpg".data "Cup".data
    "product_images/Cup_abcd1234.jpg".data (by decide) (by rfl)

/-- C7, counterexample. The end-to-end scenario from the spec (a
"Disposable Cup" page whose sole image candidate yields nothing — here
the download fails): the assembled record's `Images` field is the EMPTY
string, not a placeholder reference; no placeholder substitution exists
in the code. The record is still counted a success. -/
theorem no_placeholder_cex :
    (scrapeProduct (fun _ => 0) (fun _ => some []) (fun _ => false)
      (fun _ => "abcd1234".data) "sku00000".data (fun s => s)
      "https://detail.1688.com/offer/2.html".data
      "Disposable Cup 98mm".data "1".data "desc".data
      ["https://cdn.example.com/img_500x500_q60.jpg".data] [] [] [] ∅).2.1.Images
      = [] ∧
    (scrapeProduct (fun _ => 0) (fun _ => some []) (fun _ => false)
      (fun _ => "abcd1234".data) "sku00000".data (fun s => s)
      "https://detail.1688.com/offer/2.html".data
      "Disposable Cup 98mm".data "1".data "desc".data
      ["https://cdn.example.com/img_500x500_q60.jpg".data] [] [] [] ∅).1
      = true :=
  ⟨by rfl, by rfl⟩

/-- C7, amended. When zero images are retained for a product, the
record's `Images` field is the empty string (there is no placeholder
substitution), and the record still counts as a success. -/
theorem empty_images_no_placeholder (md5 : List Nat → Nat)
    (fetchBytes : Str → Option (List Nat)) (fetchImg : Str → Bool)
    (uid : Nat → Str) (skuId : Str) (translate : Str → Str) (url : Str)
    (name price description : Str) (imageUrls : List Str)
    (variations : List (Str × Str)) (shipping seller : List (Str × Str))
    (hashes : Finset Nat)
    (h : (downloadImagesLoop md5 fetchBytes fetchImg uid
        (translateField translate name) imageUrls hashes 0).1 = []) :
    (scrapeProduct md5 fetchBytes fetchImg uid skuId translate url
      name price description imageUrls variations shipping seller
      hashes).2.1.Images = [] ∧
    (scrapeProduct md5 fetchBytes fetchImg uid skuId translate url
      name price description imageUrls variations shipping seller
      hashes).1 = true := by
  unfold scrapeProduct
  refine ⟨?_, rfl⟩
  simp only [h, joinSep]

/-- Witness for the amended C7 at a zero-candidate input. -/
theorem empty_images_no_placeholder_witness :
    (scrapeProduct (fun _ => 0) (fun _ => none) (fun _ => true)
      (fun _ => "abcd1234".data) "sku00000".data (fun s => s)
      "https://detail.1688.com/offer/3.html".data
      "Cup".data "1".data "desc".data [] [] [] [] ∅).2.1.Images = [] ∧
    (scrapeProduct (fun _ => 0) (fun _ => none) (fun _ => true)
      (fun _ => "abcd1234".data) "sku00000".data (fun s => s)
      "https://detail.1688.com/offer/3.html".data
      "Cup".data "1".data "desc".data [] [] [] [] ∅).1 = true :=
  empty_images_no_placeholder (fun _ => 0) (fun _ => none) (fun _ => true)
    (fun _ => "abcd1234".data) "sku00000".data (fun s => s)
    "https://detail.1688.com/offer/3.html".data
    "Cup".data "1".data "desc".data [] [] [] [] ∅ (by rfl)
